import Mathlib

/-!
Verification development for the funserver container-runtime lifecycle manager
(package `container`: `server.go`, `utils.go`, the WSL2 backend, the bundled
containerd extraction helper, and `manager.go`).

The Go code is shallowly embedded: every OS interaction (filesystem stat /
write, process spawn, signal delivery, WSL commands, socket probe) is an
explicit value in a small oracle record, and each Go function becomes a pure
Lean function from the current state and the oracle record to its result,
its updated state, and its externally visible effects.  Fault-free syscalls
that the code treats as infallible bookkeeping (for example `MkdirAll` on a
path that already exists) are modelled as total state updates; syscalls whose
failure the code branches on get a Boolean outcome in the oracle record.
-/

set_option maxRecDepth 40000

namespace Funserver

/-- Metadata of one file in the modelled filesystem: the executable permission
bit (`mode & 0111 != 0` in the Go code) and an abstract content identifier. -/
structure FileInfo where
  executable : Bool
  content : Nat
deriving DecidableEq

/-- The modelled filesystem: an association list of files keyed by path, the
set of directories that exist, and a counter of file writes performed (each
`os.OpenFile(..., O_CREATE|O_WRONLY, 0755)` followed by `io.Copy` counts as
one write). -/
structure FS where
  files : List (String × FileInfo)
  dirs : List String
  writeCount : Nat
deriving DecidableEq

/-- First entry of the association list whose key equals the path
(`os.Stat` on the modelled filesystem). -/
def lookupFile : List (String × FileInfo) → String → Option FileInfo
  | [], _ => none
  | (q, i) :: rest, p => if q = p then some i else lookupFile rest p

/-- `os.Stat`: the file at `p`, if any. -/
def statFile (fs : FS) (p : String) : Option FileInfo :=
  lookupFile fs.files p

/-- Replace the entry at `p` or append it. -/
def upsertFile : List (String × FileInfo) → String → FileInfo → List (String × FileInfo)
  | [], p, info => [(p, info)]
  | (q, old) :: rest, p, info =>
    if q = p then (p, info) :: rest else (q, old) :: upsertFile rest p info

/-- `os.MkdirAll`: records the directory; a no-op when it already exists.
Never touches `files` or `writeCount`. -/
def mkdirAll (fs : FS) (d : String) : FS :=
  if d ∈ fs.dirs then fs else { fs with dirs := d :: fs.dirs }

/-- `os.OpenFile(p, O_CREATE|O_WRONLY, 0755)` followed by `io.Copy`:
if the file does not exist it is created with the executable bit set
(mode 0755); if it already exists the 0755 mode argument is ignored by the
OS, so the previous permission bits survive and only the content changes.
Each call counts as one write. -/
def openCreateWriteFile (fs : FS) (p : String) (c : Nat) : FS :=
  let info : FileInfo :=
    match statFile fs p with
    | some old => { executable := old.executable, content := c }
    | none => { executable := true, content := c }
  { fs with files := upsertFile fs.files p info, writeCount := fs.writeCount + 1 }

/-- `filepath.Join` of two components (the path separator is abstracted to
`/`; `Join(dir, "")` is `dir`, as in Go). -/
def joinPath (a b : String) : String :=
  if b = "" then a else a ++ "/" ++ b

/-! ### Binary provisioning cache (`utils.go` lines 141-194, `part_007`)

`BundledBinaryDir` is a process-wide variable resolved at load time; it is
passed here as the `binDir` argument.  `runtime.GOOS` is the `goos` argument
and the directory of the running executable is `exeDir`. -/

/-- `GetBundledRuncPath`. -/
def GetBundledRuncPath (goos binDir : String) : String :=
  joinPath binDir (if goos = "windows" then "runc.exe" else "runc")

/-- Source path of the bundled runc binary next to the executable
(`utils.go` lines 162-169). -/
def runcSourcePath (goos exeDir : String) : String :=
  if goos = "windows" then
    joinPath (joinPath (joinPath exeDir "binaries") "windows") "runc.exe"
  else
    joinPath (joinPath (joinPath exeDir "binaries") goos) "runc"

/-- The copy step of `EnsureBundledRuncExtracted` (source lookup plus
byte-copy to the cache destination). -/
def extractRuncCopy (goos binDir exeDir : String) (fs : FS) : Except String Unit × FS :=
  match statFile fs (runcSourcePath goos exeDir) with
  | none => (Except.error ("bundled runc binary not found at " ++ runcSourcePath goos exeDir), fs)
  | some src =>
    (Except.ok (), openCreateWriteFile fs (GetBundledRuncPath goos binDir) src.content)

/-- `EnsureBundledRuncExtracted` (`utils.go` lines 142-194): create the cache
directory, then return immediately when the destination exists with the
executable bit set, otherwise copy the bundled source binary over. -/
def EnsureBundledRuncExtracted (goos binDir exeDir : String) (fs : FS) :
    Except String Unit × FS :=
  let fs1 := mkdirAll fs binDir
  match statFile fs1 (GetBundledRuncPath goos binDir) with
  | some info =>
    if info.executable then (Except.ok (), fs1)
    else extractRuncCopy goos binDir exeDir fs1
  | none => extractRuncCopy goos binDir exeDir fs1

/-- The `binaryPaths` map of `part_007`; a missing key yields the Go zero
value `""`. -/
def binaryPaths (goos : String) : String :=
  if goos = "linux" then "binaries/linux/containerd"
  else if goos = "windows" then "binaries/windows/containerd.exe"
  else if goos = "darwin" then "binaries/darwin/containerd"
  else ""

/-- `GetBundledContainerdPath`. -/
def GetBundledContainerdPath (goos binDir : String) : String :=
  joinPath binDir (if goos = "windows" then "containerd.exe" else "containerd")

/-- The copy step of `extractBundledContainerd`. -/
def extractContainerdCopy (goos binDir exeDir : String) (fs : FS) : Except String Unit × FS :=
  match statFile fs (joinPath exeDir (binaryPaths goos)) with
  | none =>
    (Except.error ("bundled containerd binary not found at " ++ joinPath exeDir (binaryPaths goos)), fs)
  | some src =>
    (Except.ok (), openCreateWriteFile fs (GetBundledContainerdPath goos binDir) src.content)

/-- `extractBundledContainerd` (`part_007` lines 20-71), the implementation
behind `EnsureBundledContainerdExtracted`. -/
def extractBundledContainerd (goos binDir exeDir : String) (fs : FS) :
    Except String Unit × FS :=
  let fs1 := mkdirAll fs binDir
  match statFile fs1 (GetBundledContainerdPath goos binDir) with
  | some info =>
    if info.executable then (Except.ok (), fs1)
    else extractContainerdCopy goos binDir exeDir fs1
  | none => extractContainerdCopy goos binDir exeDir fs1

/-! ### Readiness protocol (`utils.go` lines 317-347, `WaitForSocket`)

`WaitForSocket` derives its own context with `context.WithTimeout` from
`context.Background()`; the `cancel` function only runs via `defer`, after
the return value is computed, so inside the function `ctx.Done()` can only
fire through the deadline and `ctx.Err()` is then always
`context.DeadlineExceeded`.  In particular the `return nil` after the
`ctx.Err() == context.DeadlineExceeded` check in the named-pipe branch is
unreachable, and caller-driven context cancellation is impossible.

Time is modelled in milliseconds.  `avail t` says whether `os.Stat` on the
socket path succeeds at time `t`; the ticker fires at 100, 200, ...; ticks
strictly inside the deadline window (`100*k ≤ timeoutMs` with
`k ≤ timeoutMs / 100`) are delivered before the deadline. -/

/-- Character-list version of `String.startsWith`. -/
def isPre : List Char → List Char → Bool
  | [], _ => true
  | _ :: _, [] => false
  | a :: as, b :: bs => a == b && isPre as bs

/-- The Windows named-pipe scheme `\\.\pipe\`. -/
def pipeScheme : String := "\\\\.\\pipe\\"

/-- `strings.HasPrefix(p, pipeScheme)`. -/
def isPipeAddress (p : String) : Bool :=
  isPre pipeScheme.data p.data

/-- Substring test over character lists (`strings.Contains`). -/
def charsContain (sub : List Char) : List Char → Bool
  | [] => isPre sub []
  | c :: cs => isPre sub (c :: cs) || charsContain sub cs

/-- `strings.Contains s sub`. -/
def strContains (s sub : String) : Bool :=
  charsContain sub.data s.data

/-- Smallest tick index `k ∈ [1, n]` with `avail (100 * k) = true`, if any:
the first ticker tick at which the `os.Stat` probe succeeds. -/
def firstReadyTick (avail : Nat → Bool) : Nat → Option Nat
  | 0 => none
  | n + 1 =>
    match firstReadyTick avail n with
    | some k => some k
    | none => if avail (100 * (n + 1)) then some (n + 1) else none

/-- Timeout error message of `WaitForSocket`. -/
def waitTimeoutMsg (socketPath : String) : String :=
  "timeout waiting for containerd socket at " ++ socketPath

/-- `WaitForSocket(socketPath, timeout)`: the result together with the
elapsed time in milliseconds at which the function returns.  For named-pipe
addresses it blocks on `ctx.Done()` for the full timeout and then, because
`ctx.Err()` is necessarily `context.DeadlineExceeded`, returns the timeout
error (the following `return nil` is dead code).  For other addresses it
polls the `os.Stat` existence probe at every 100 ms tick until the deadline. -/
def WaitForSocket (avail : Nat → Bool) (socketPath : String) (timeoutMs : Nat) :
    Except String Unit × Nat :=
  if isPipeAddress socketPath then
    (Except.error (waitTimeoutMsg socketPath), timeoutMs)
  else
    match firstReadyTick avail (timeoutMs / 100) with
    | some k => (Except.ok (), 100 * k)
    | none => (Except.error (waitTimeoutMsg socketPath), timeoutMs)

/-! ### Configuration records (`server.go`, `part_006`, `utils.go`) -/

/-- `ServerConfig` (`server.go` lines 18-31). -/
structure ServerConfig where
  root : String
  state : String
  address : String
  config : String
  logLevel : String
  logFile : String
deriving DecidableEq

/-- `WSL2Config` (`part_006` lines 18-31). -/
structure WSL2Config where
  enabled : Bool
  distribution : String
  mountDir : String
  memory : Nat
  cpus : Nat
  swap : Nat
  diskGB : Nat
  kernel : String
deriving DecidableEq

/-- `LinuxKitConfig` (`utils.go` lines 350-365). -/
structure LinuxKitConfig where
  memory : Nat
  cpus : Nat
  diskSize : Nat
  name : String
  kernelPath : String
  initrdPath : String
  stateDir : String
deriving DecidableEq

/-- `DefaultWSL2Config` (`part_006` lines 34-45); `homeDir` stands for
`os.UserHomeDir()`. -/
def DefaultWSL2Config (homeDir : String) : WSL2Config where
  enabled := true
  distribution := "wsl-fun"
  mountDir := joinPath (joinPath homeDir ".fun") "wsl-mounts"
  memory := 4096
  cpus := 2
  swap := 2048
  diskGB := 10
  kernel := ""

/-- `DefaultLinuxKitConfig` (`utils.go` lines 368-381). -/
def DefaultLinuxKitConfig (homeDir : String) : LinuxKitConfig where
  memory := 1024
  cpus := 2
  diskSize := 10
  name := "fun-containerd-vm"
  kernelPath := joinPath (joinPath homeDir ".fun/linuxkit") "kernel"
  initrdPath := joinPath (joinPath homeDir ".fun/linuxkit") "initrd.img"
  stateDir := joinPath (joinPath homeDir ".fun/linuxkit") "state"

/-- `GetFunSocketPath` (`utils.go` lines 291-297); `goosWindows` is
`runtime.GOOS == "windows"`. -/
def GetFunSocketPath (goosWindows : Bool) (homeDir : String) : String :=
  if goosWindows then "\\\\.\\pipe\\fun-containerd"
  else joinPath (joinPath (joinPath homeDir ".fun") "containerd") "containerd.sock"

/-- A handle to the spawned engine subprocess: `processStarted` is
`cmd.Process != nil`, i.e. whether `cmd.Start()` succeeded. -/
structure ProcHandle where
  processStarted : Bool
deriving DecidableEq

/-- `Server` (`server.go` lines 34-44).  The mutex is not represented: all
operations here are the synchronous bodies executed under it. -/
structure Server where
  config : ServerConfig
  cmd : Option ProcHandle
  running : Bool
  linuxKitConfig : LinuxKitConfig
  wsl2Config : WSL2Config
  vmRunning : Bool
  wslRunning : Bool
deriving DecidableEq

/-- `NewServer` (`server.go` lines 69-99): fill empty config fields with
defaults, then create a non-running server with default backend configs. -/
def NewServer (goosWindows : Bool) (homeDir : String) (config : ServerConfig) : Server :=
  let config :=
    { config with
      root := if config.root = "" then joinPath (joinPath (joinPath homeDir ".fun") "containerd") "root" else config.root
      state := if config.state = "" then joinPath (joinPath (joinPath homeDir ".fun") "containerd") "state" else config.state
      address := if config.address = "" then GetFunSocketPath goosWindows homeDir else config.address
      logLevel := if config.logLevel = "" then "info" else config.logLevel
      logFile := if config.logFile = "" then joinPath (joinPath (joinPath homeDir ".fun") "containerd") "containerd.log" else config.logFile }
  { config := config
    cmd := none
    running := false
    linuxKitConfig := DefaultLinuxKitConfig homeDir
    wsl2Config := DefaultWSL2Config homeDir
    vmRunning := false
    wslRunning := false }

/-- `Server.IsRunning` (`server.go` lines 342-347). -/
def Server.IsRunning (s : Server) : Bool := s.running

/-- `Server.GetSocketAddress` (`server.go` lines 350-352). -/
def Server.GetSocketAddress (s : Server) : String := s.config.address

/-! ### WSL2 backend (`part_006`) -/

/-- Outcomes of the primitive WSL2 operations that `StartWSL2Environment`
performs, in program order. -/
structure WSL2Env where
  /-- `IsWSL2Available()`: wsl.exe found and `wsl --status` mentions WSL 2. -/
  wsl2Available : Bool
  /-- `IsWSL2DistributionAvailable(config.Distribution)`. -/
  distroAvailable : Bool
  /-- Outcome of `InstallWSL2Components` when it is invoked (rootfs download,
  import, configuration, in-guest engine install). -/
  installOk : Bool
  /-- `cmd.Start()` of `wsl.exe --distribution <name> --`, which boots the
  distribution. -/
  launchOk : Bool
  /-- `mountWSL2Directory`. -/
  mountOk : Bool
  /-- `cmd.Start()` of `containerd` inside the guest. -/
  guestEngineStartOk : Bool
deriving DecidableEq

/-- `StartWSL2Environment` (`part_006` lines 241-280).  The second component
records whether the WSL2 distribution was actually launched before the
function returned; on the mount and in-guest-engine failure paths the
distribution has already been started and is not terminated. -/
def StartWSL2Environment (e : WSL2Env) : Except String Unit × Bool :=
  if e.wsl2Available then
    if e.distroAvailable ∨ e.installOk then
      if e.launchOk then
        if e.mountOk then
          if e.guestEngineStartOk then (Except.ok (), true)
          else (Except.error "failed to start containerd in WSL", true)
        else (Except.error "failed to mount host directory in WSL", true)
      else (Except.error "failed to start WSL distribution", false)
    else (Except.error "failed to install WSL components", false)
  else
    (Except.error "WSL2 is not installed. Please install WSL2 from Microsoft Store or run wsl --install in an elevated command prompt", false)

/-- `GetWindowsContainerdSocketPath` (`part_006` lines 326-335). -/
def GetWindowsContainerdSocketPath (wsl2Available : Bool) (cfg : WSL2Config) : String :=
  if cfg.enabled ∧ wsl2Available then
    "wsl://" ++ cfg.distribution ++ "/run/containerd/containerd.sock"
  else "\\\\.\\pipe\\fun-containerd"

/-! ### Native backend start (`server.go` lines 166-277) -/

/-- Which backend processes a `Start` call launched (and whether the native
subprocess was killed again by the readiness-timeout cleanup). -/
structure StartEffects where
  vmLaunched : Bool
  wslLaunched : Bool
  nativeSpawned : Bool
  nativeKilled : Bool
deriving DecidableEq

/-- No effect. -/
def noEffects : StartEffects where
  vmLaunched := false
  wslLaunched := false
  nativeSpawned := false
  nativeKilled := false

/-- Oracle record for the native containerd startup path: extraction and
path-resolution results plus the outcome of each syscall the code branches
on, and the reachability trace of the control address consumed by
`WaitForSocket`. -/
structure NativeEnv where
  /-- `EnsureAllBundledComponentsExtracted()` succeeded. -/
  extractAllOk : Bool
  /-- `GetContainerdPath()` after the extraction attempt (`""` = not found);
  `IsContainerdInstalled()` is this being nonempty. -/
  containerdPath : String
  /-- `GetRuncPath()` after the extraction attempt. -/
  runcPath : String
  /-- `GetCNIPath()` after the extraction attempt. -/
  cniPath : String
  /-- The process-wide `BundledBinaryDir`. -/
  bundledBinaryDir : String
  mkdirRootOk : Bool
  mkdirStateOk : Bool
  mkdirSocketDirOk : Bool
  mkdirLogDirOk : Bool
  mkdirCniConfOk : Bool
  logFileOpenOk : Bool
  /-- `cmd.Start()` of the containerd subprocess. -/
  spawnOk : Bool
  /-- Reachability trace of the control address, fed to `WaitForSocket`. -/
  avail : Nat → Bool

/-- The early-return prerequisite phase of the native containerd startup
(`server.go` lines 166-246): extraction fallback checks, path resolution,
directory creation, and the CNI configuration-directory creation performed
while building the argument vector.  Each check returns early with its
error in the source; this function yields the first failing check's error,
if any. -/
def nativePrereqErr (s : Server) (e : NativeEnv) : Option String :=
  if ¬ e.extractAllOk ∧ e.containerdPath = "" then
    some "containerd is not available and failed to extract bundled binary"
  else if ¬ e.extractAllOk ∧ e.runcPath = "" then
    some "runc is not available and failed to extract bundled binary"
  else if e.containerdPath = "" then
    some "containerd is not available"
  else if e.runcPath = "" then
    some "runc is not available"
  else if ¬ e.mkdirRootOk then
    some "failed to create root directory"
  else if ¬ e.mkdirStateOk then
    some "failed to create state directory"
  else if ¬ isPipeAddress s.config.address ∧ ¬ e.mkdirSocketDirOk then
    some "failed to create socket directory"
  else if ¬ e.mkdirLogDirOk then
    some "failed to create log directory"
  else if e.cniPath ≠ "" ∧ strContains e.cniPath e.bundledBinaryDir ∧ ¬ e.mkdirCniConfOk then
    some "failed to create CNI configuration directory"
  else none

/-- The native containerd startup (`server.go` lines 166-277): the
prerequisite phase above, then log-file redirection, spawn, then
`WaitForSocket` with the fixed 30 s budget.  Note that `s.cmd` is assigned
before the spawn is attempted and therefore stays set on the log-file,
spawn and readiness failure paths, exactly as in the source. -/
def nativeStart (s : Server) (e : NativeEnv) : Except String Unit × Server × StartEffects :=
  match nativePrereqErr s e with
  | some msg => (Except.error msg, s, noEffects)
  | none =>
    let s1 : Server := { s with cmd := some { processStarted := false } }
    if ¬ e.logFileOpenOk then
      (Except.error "failed to open log file", s1, noEffects)
    else if ¬ e.spawnOk then
      (Except.error "failed to start containerd", s1, noEffects)
    else
      let s2 : Server := { s1 with cmd := some { processStarted := true } }
      match WaitForSocket e.avail s2.config.address 30000 with
      | (Except.ok _, _) =>
        (Except.ok (), { s2 with running := true },
          { noEffects with nativeSpawned := true })
      | (Except.error _, _) =>
        (Except.error "failed waiting for containerd to start", s2,
          { noEffects with nativeSpawned := true, nativeKilled := true })

/-! ### `Server.Start` (`server.go` lines 102-277) -/

/-- `Except.isOk`. -/
def exceptOk : Except String Unit → Bool
  | Except.ok _ => true
  | Except.error _ => false

/-- Oracle record for one `Server.Start` call.  `isMacOS` is
`IsRunningOnMacOS()` (`runtime.GOOS == "darwin"`); `isWindows` is
`IsRunningOnWindows()` (`os.Getenv("OS") == "Windows_NT"`). -/
structure StartEnv where
  isMacOS : Bool
  isWindows : Bool
  /-- `StartLinuxKitVM` outcome (component provisioning, hyperkit launch). -/
  linuxKitStartOk : Bool
  wsl2 : WSL2Env
  /-- `EnsureContainerdInWSL` outcome. -/
  ensureGuestEngineOk : Bool
  native : NativeEnv

/-- `Server.Start`: early return when already running; macOS starts the
LinuxKit VM; Windows tries the WSL2 environment when enabled and available,
logging a fallback notice and continuing with the native path when the WSL2
start fails (or when WSL2 is unavailable); all remaining cases run the
native containerd startup. -/
def Server.Start (s : Server) (e : StartEnv) : Except String Unit × Server × StartEffects :=
  if s.running then (Except.ok (), s, noEffects)
  else if e.isMacOS then
    if e.linuxKitStartOk then
      (Except.ok (), { s with vmRunning := true, running := true },
        { noEffects with vmLaunched := true })
    else (Except.error "failed to start LinuxKit VM", s, noEffects)
  else if e.isWindows ∧ s.wsl2Config.enabled ∧ e.wsl2.wsl2Available then
    let r := StartWSL2Environment e.wsl2
    if exceptOk r.1 then
      let s1 : Server := { s with wslRunning := true }
      if e.ensureGuestEngineOk then
        (Except.ok (),
          { s1 with
            running := true
            config := { s1.config with
              address := GetWindowsContainerdSocketPath e.wsl2.wsl2Available s1.wsl2Config } },
          { noEffects with wslLaunched := true })
      else
        (Except.error "failed to ensure containerd is installed in WSL2", s1,
          { noEffects with wslLaunched := true })
    else
      -- fallback: log the warning and continue with the native path; a
      -- partially started WSL2 distribution is not terminated here
      let n := nativeStart s e.native
      (n.1, n.2.1, { n.2.2 with wslLaunched := r.2 })
  else
    nativeStart s e.native

/-! ### `Server.Stop` (`server.go` lines 280-339) -/

/-- Behaviour of the supervised containerd process during `Stop`:
either it exits (or has already exited) with the given status code before
the 30 s escalation budget elapses, or it ignores the interrupt signal past
the budget.  A process that already exited on its own is a zombie until
`cmd.Wait` reaps it, so signalling it still succeeds and `Wait` returns its
exit status immediately. -/
inductive ProcBehavior where
  | exits (code : Nat)
  | ignores
deriving DecidableEq

/-- Oracle record for one `Server.Stop` call. -/
structure StopEnv where
  isMacOS : Bool
  isWindows : Bool
  /-- `StopLinuxKitVM` outcome. -/
  stopLinuxKitOk : Bool
  /-- `StopWSL2Environment` outcome. -/
  stopWSLOk : Bool
  /-- Delivery of `os.Interrupt` via `Process.Signal`. -/
  signalOk : Bool
  /-- The caller-supplied context is cancelled before the process exits and
  before the 30 s budget elapses. -/
  ctxCancelled : Bool
  behavior : ProcBehavior
  /-- `Process.Kill` outcome. -/
  killOk : Bool
deriving DecidableEq

/-- `cmd != nil && cmd.Process != nil`. -/
def cmdHasProcess : Option ProcHandle → Bool
  | none => false
  | some h => h.processStarted

/-- `Server.Stop`: the macOS LinuxKit branch, the Windows WSL2 branch, the
guard treating a non-running server (or one without a live process handle)
as already stopped, then interrupt / 30 s wait / kill escalation.  On the
escalation and context-cancellation branches `s.running` is left untouched;
only the process-exit branch clears it. -/
def Server.Stop (s : Server) (e : StopEnv) : Except String Unit × Server :=
  if e.isMacOS ∧ s.vmRunning then
    if e.stopLinuxKitOk then
      (Except.ok (), { s with vmRunning := false, running := false })
    else (Except.error "failed to stop LinuxKit VM", s)
  else if e.isWindows ∧ s.wslRunning then
    if e.stopWSLOk then
      (Except.ok (), { s with wslRunning := false, running := false })
    else (Except.error "failed to stop WSL2 environment", s)
  else if ¬ s.running ∨ cmdHasProcess s.cmd = false then
    (Except.ok (), s)
  else if ¬ e.signalOk then
    (Except.error "failed to send interrupt signal", s)
  else if e.ctxCancelled then
    if e.killOk then (Except.error "containerd killed due to context cancellation", s)
    else (Except.error "failed to kill containerd process on context done", s)
  else
    match e.behavior with
    | ProcBehavior.ignores =>
      if e.killOk then (Except.error "containerd did not exit gracefully, killed", s)
      else (Except.error "failed to kill containerd process", s)
    | ProcBehavior.exits code =>
      if code = 0 then (Except.ok (), { s with running := false })
      else (Except.error "containerd exited with error", { s with running := false })

/-! ### Manager (`part_008`, manager portion) -/

/-- `ManagerConfig` (`namespaceName` is the Go field `Namespace`). -/
structure ManagerConfig where
  runAs : String
  serverConfig : ServerConfig
  clientSocket : String
  namespaceName : String
deriving DecidableEq

/-- `Manager`; the runtime client is abstracted to a unit handle. -/
structure Manager where
  config : ManagerConfig
  server : Option Server
  client : Option Unit
  useEmbedded : Bool
deriving DecidableEq

/-- `NewManager`: default the run mode and namespace, propagate the client
socket into the server config for `both` mode, and start with no server and
no client. -/
def NewManager (config : ManagerConfig) : Manager :=
  let config :=
    { config with
      runAs := if config.runAs = "" then "client" else config.runAs }
  let config :=
    { config with
      namespaceName := if config.namespaceName = "" then "fun" else config.namespaceName }
  let config :=
    if config.runAs = "both" ∧ config.serverConfig.address = "" then
      { config with serverConfig := { config.serverConfig with address := config.clientSocket } }
    else config
  { config := config
    server := none
    client := none
    useEmbedded := config.runAs = "server" ∨ config.runAs = "both" }

/-- `CheckContainerdRunning` (`utils.go` lines 300-315): existence probe for
non-pipe socket paths, unconditionally `true` for named pipes.  The Go
function substitutes a default path when given `""`; `pathExists` is the
probe outcome for the effective path. -/
def CheckContainerdRunning (pathExists : Bool) (socketPath : String) : Bool :=
  if isPipeAddress socketPath then true else pathExists

/-- Oracle record for one `Manager.Start` call. -/
structure MStartEnv where
  goosWindows : Bool
  homeDir : String
  /-- `IsContainerdInstalled()`. -/
  containerdInstalled : Bool
  serverStart : StartEnv
  /-- `os.Stat` success on the client socket path, for
  `CheckContainerdRunning`. -/
  clientSocketExists : Bool
  /-- `NewClient` outcome. -/
  newClientOk : Bool

/-- The client phase of `Manager.Start` (`part_008` lines 393-409): in
client-only mode probe for a running containerd first; on `NewClient`
failure stop and drop any server this call started. -/
def managerClientPhase (m : Manager) (e : MStartEnv) : Except String Unit × Manager :=
  if m.config.runAs = "client" ∨ m.config.runAs = "both" then
    if m.config.runAs = "client" ∧
        CheckContainerdRunning e.clientSocketExists m.config.clientSocket = false then
      (Except.error ("no containerd instance available at " ++ m.config.clientSocket), m)
    else if e.newClientOk then
      (Except.ok (), { m with client := some () })
    else
      (Except.error "failed to create containerd client", { m with server := none })
  else (Except.ok (), m)

/-- `Manager.Start` (`part_008` lines 372-412): in server mode require an
installed containerd, construct and start a fresh `Server`, record it, point
the client socket at the server address in `both` mode, then run the client
phase. -/
def Manager.Start (m : Manager) (e : MStartEnv) : Except String Unit × Manager :=
  if m.config.runAs = "server" ∨ m.config.runAs = "both" then
    if ¬ e.containerdInstalled then
      (Except.error "containerd is not installed, cannot run as server", m)
    else
      let r := Server.Start (NewServer e.goosWindows e.homeDir m.config.serverConfig) e.serverStart
      if exceptOk r.1 then
        let m1 : Manager := { m with server := some r.2.1 }
        let m2 : Manager :=
          if m1.config.runAs = "both" then
            { m1 with config := { m1.config with clientSocket := (r.2.1).config.address } }
          else m1
        managerClientPhase m2 e
      else (Except.error "failed to start containerd server", m)
  else managerClientPhase m e

/-- Oracle record for one `Manager.Stop` call. -/
structure MStopEnv where
  /-- `client.Close()` outcome. -/
  clientCloseOk : Bool
  serverStop : StopEnv
deriving DecidableEq

/-- `Manager.Stop` (`part_008` lines 415-439): close the client if present,
stop the server if present, clear both fields, and return the first error
encountered (client error takes precedence). -/
def Manager.Stop (m : Manager) (e : MStopEnv) : Except String Unit × Manager :=
  let clientErr : Option String :=
    match m.client with
    | some _ => if e.clientCloseOk then none else some "close error"
    | none => none
  let serverErr : Option String :=
    match m.server with
    | some srv =>
      match (Server.Stop srv e.serverStop).1 with
      | Except.ok _ => none
      | Except.error msg => some msg
    | none => none
  let m1 : Manager := { m with client := none, server := none }
  match clientErr with
  | some msg => (Except.error ("failed to close containerd client: " ++ msg), m1)
  | none =>
    match serverErr with
    | some msg => (Except.error ("failed to stop containerd server: " ++ msg), m1)
    | none => (Except.ok (), m1)

/-! ## Lemmas about the readiness poll -/

theorem firstReadyTick_none_of_false (avail : Nat → Bool) :
    ∀ n : Nat, (∀ j : Nat, 1 ≤ j → j ≤ n → avail (100 * j) = false) →
      firstReadyTick avail n = none := by
  intro n
  induction n with
  | zero => intro _; rfl
  | succ n ih =>
    intro h
    have hn := ih (fun j h1 h2 => h j h1 (Nat.le_succ_of_le h2))
    have ha := h (n + 1) (Nat.succ_le_succ (Nat.zero_le n)) (Nat.le_refl _)
    simp [firstReadyTick, hn, ha]

theorem firstReadyTick_le (avail : Nat → Bool) :
    ∀ n k : Nat, firstReadyTick avail n = some k → k ≤ n := by
  intro n
  induction n with
  | zero => intro k h; exact absurd h (by simp [firstReadyTick])
  | succ n ih =>
    intro k h
    rw [firstReadyTick] at h
    cases hrec : firstReadyTick avail n with
    | some k2 =>
      rw [hrec] at h
      simp at h
      subst h
      exact Nat.le_succ_of_le (ih k2 hrec)
    | none =>
      rw [hrec] at h
      by_cases ha : avail (100 * (n + 1)) = true
      · simp [ha] at h
        omega
      · simp [Bool.eq_false_iff.mpr ha] at h

theorem firstReadyTick_eq_of_min (avail : Nat → Bool) (k : Nat)
    (h1 : 1 ≤ k) (hk : avail (100 * k) = true)
    (hmin : ∀ j : Nat, 1 ≤ j → j < k → avail (100 * j) = false) :
    ∀ n : Nat, k ≤ n → firstReadyTick avail n = some k := by
  intro n
  induction n with
  | zero => intro h; exact absurd (h1.trans h) (by omega)
  | succ n ih =>
    intro hkn
    by_cases hle : k ≤ n
    · have hr := ih hle
      simp [firstReadyTick, hr]
    · have hkeq : k = n + 1 := by omega
      have hnone :=
        firstReadyTick_none_of_false avail n (fun j hj1 hj2 => hmin j hj1 (by omega))
      subst hkeq
      simp [firstReadyTick, hnone, hk]

theorem waitForSocket_timeout_of_false (avail : Nat → Bool) (p : String) (t : Nat)
    (h : ∀ k : Nat, 1 ≤ k → k ≤ t / 100 → avail (100 * k) = false) :
    WaitForSocket avail p t = (Except.error (waitTimeoutMsg p), t) := by
  unfold WaitForSocket
  split
  · rfl
  · simp [firstReadyTick_none_of_false avail (t / 100) h]

/-- Claim C6 (confirmed): for every address and timeout, `WaitForSocket`
always terminates with success or the timeout error (caller-driven context
cancellation cannot occur because the function derives its own context, so
the context-cancellation disjunct of the claim is vacuous), it never waits
longer than the configured timeout plus one 100 ms poll interval, and for
probe-able (non-pipe) addresses it returns success at the first poll tick at
which the target is reachable. -/
theorem c6_wait_terminates_bounded (avail : Nat → Bool) (socketPath : String) (timeoutMs : Nat) :
    ((WaitForSocket avail socketPath timeoutMs).1 = Except.ok () ∨
      (WaitForSocket avail socketPath timeoutMs).1 =
        Except.error (waitTimeoutMsg socketPath)) ∧
    (WaitForSocket avail socketPath timeoutMs).2 ≤ timeoutMs + 100 ∧
    (∀ k : Nat, isPipeAddress socketPath = false → 1 ≤ k → k ≤ timeoutMs / 100 →
      avail (100 * k) = true →
      (∀ j : Nat, 1 ≤ j → j < k → avail (100 * j) = false) →
      WaitForSocket avail socketPath timeoutMs = (Except.ok (), 100 * k)) := by
  refine ⟨?_, ?_, ?_⟩
  · unfold WaitForSocket
    split
    · exact Or.inr rfl
    · cases hr : firstReadyTick avail (timeoutMs / 100) with
      | some k => simp [hr]
      | none => simp [hr]
  · unfold WaitForSocket
    split
    · omega
    · cases hr : firstReadyTick avail (timeoutMs / 100) with
      | some k =>
        have hk := firstReadyTick_le avail (timeoutMs / 100) k hr
        have hd : timeoutMs / 100 * 100 ≤ timeoutMs := Nat.div_mul_le_self _ _
        simp only [hr]
        omega
      | none => simp [hr]
  · intro k hpipe h1 h2 hk hmin
    unfold WaitForSocket
    rw [hpipe]
    simp [firstReadyTick_eq_of_min avail k h1 hk hmin (timeoutMs / 100) h2]

/-- Witness for C6 at a concrete input: a filesystem socket that becomes
reachable at 200 ms is reported ready at the second poll tick. -/
theorem c6_witness :
    WaitForSocket (fun t => decide (200 ≤ t)) "/tmp/containerd.sock" 1000 =
      (Except.ok (), 200) := by
  have h := (c6_wait_terminates_bounded (fun t => decide (200 ≤ t))
    "/tmp/containerd.sock" 1000).2.2
  refine h 2 rfl (by omega) (by omega) (by decide) ?_
  intro j hj1 hj2
  have : j = 1 := by omega
  subst this
  decide

/-- Claim C3 (code bug): the claim — and the comment inside `WaitForSocket`
itself ("we'll just wait for the timeout and let the client handle
connection") — say that for a named-pipe address the function waits the full
timeout and returns without reporting failure.  The code instead always
returns the timeout error: its own context is created with
`context.WithTimeout` and is never cancelled before return, so after
`<-ctx.Done()` the `ctx.Err() == context.DeadlineExceeded` test always
succeeds and the following `return nil` is dead code.  Evaluation at the
failing input (the default Windows pipe address, 30 s timeout, target
reachable the whole time): an error is returned. -/
theorem c3_pipe_wait_returns_timeout_error :
    WaitForSocket (fun _ => true) "\\\\.\\pipe\\fun-containerd" 30000 =
      (Except.error (waitTimeoutMsg "\\\\.\\pipe\\fun-containerd"), 30000) := by
  rfl

/-! ## Lemmas about the modelled filesystem -/

theorem statFile_mkdirAll (fs : FS) (d p : String) :
    statFile (mkdirAll fs d) p = statFile fs p := by
  unfold statFile mkdirAll
  split <;> rfl

theorem mkdirAll_files (fs : FS) (d : String) : (mkdirAll fs d).files = fs.files := by
  unfold mkdirAll
  split <;> rfl

theorem mkdirAll_writeCount (fs : FS) (d : String) :
    (mkdirAll fs d).writeCount = fs.writeCount := by
  unfold mkdirAll
  split <;> rfl

theorem lookupFile_upsertFile_self (p : String) (i : FileInfo) :
    ∀ l : List (String × FileInfo), lookupFile (upsertFile l p i) p = some i := by
  intro l
  induction l with
  | nil => simp [upsertFile, lookupFile]
  | cons hd tl ih =>
    obtain ⟨q, old⟩ := hd
    by_cases hq : q = p
    · simp [upsertFile, lookupFile, hq]
    · simp [upsertFile, lookupFile, hq, ih]

theorem statFile_openCreateWriteFile_of_none (fs : FS) (p : String) (c : Nat)
    (h : statFile fs p = none) :
    statFile (openCreateWriteFile fs p c) p =
      some { executable := true, content := c } := by
  unfold openCreateWriteFile
  rw [h]
  unfold statFile
  exact lookupFile_upsertFile_self p _ fs.files

theorem openCreateWriteFile_writeCount (fs : FS) (p : String) (c : Nat) :
    (openCreateWriteFile fs p c).writeCount = fs.writeCount + 1 := rfl

theorem openCreateWriteFile_dirs (fs : FS) (p : String) (c : Nat) :
    (openCreateWriteFile fs p c).dirs = fs.dirs := rfl

/-- The concrete filesystem of the C4 counterexample: the cache destination
`bin/runc` pre-exists *without* the executable bit, the bundled source is
present. -/
def c4fs : FS where
  files := [("bin/runc", { executable := false, content := 5 }),
            ("exe/binaries/linux/runc", { executable := true, content := 9 })]
  dirs := ["bin"]
  writeCount := 0

/-- Claim C4 counterexample: the claim says calling `EnsureExtracted` twice
in a row performs exactly one extraction write.  Starting from a state where
the destination pre-exists without the executable bit, each of the two calls
rewrites it (the `OpenFile(..., 0755)` mode argument only applies when the
file is created, so the first copy does not set the executable bit and the
second call extracts again): two writes, not one. -/
theorem c4_counterexample :
    ((EnsureBundledRuncExtracted "linux" "bin" "exe"
        (EnsureBundledRuncExtracted "linux" "bin" "exe" c4fs).2).2).writeCount = 2 ∧
    ¬ ((EnsureBundledRuncExtracted "linux" "bin" "exe"
        (EnsureBundledRuncExtracted "linux" "bin" "exe" c4fs).2).2).writeCount = 1 := by
  exact ⟨rfl, by decide⟩

/-- Claim C4 (corrected): `EnsureBundledRuncExtracted` and
`extractBundledContainerd` are no-ops performing no filesystem write when the
cache destination already exists with the executable bit set (the returned
state differs from the input only by the `MkdirAll` directory bookkeeping,
which touches neither files nor the write counter), and calling either twice
in a row from a state where the destination is absent performs exactly one
extraction write.  The original "exactly one write for any two consecutive
calls" fails when the destination pre-exists without the executable bit, as
the counterexample shows. -/
theorem c4_amended_extraction_idempotent (goos binDir exeDir : String) (fs : FS) :
    ((mkdirAll fs binDir).files = fs.files ∧
      (mkdirAll fs binDir).writeCount = fs.writeCount) ∧
    (∀ info : FileInfo, statFile fs (GetBundledRuncPath goos binDir) = some info →
      info.executable = true →
      EnsureBundledRuncExtracted goos binDir exeDir fs = (Except.ok (), mkdirAll fs binDir)) ∧
    (∀ info : FileInfo, statFile fs (GetBundledContainerdPath goos binDir) = some info →
      info.executable = true →
      extractBundledContainerd goos binDir exeDir fs = (Except.ok (), mkdirAll fs binDir)) ∧
    (statFile fs (GetBundledRuncPath goos binDir) = none →
      ∀ src : FileInfo, statFile fs (runcSourcePath goos exeDir) = some src →
        ((EnsureBundledRuncExtracted goos binDir exeDir
            (EnsureBundledRuncExtracted goos binDir exeDir fs).2).2).writeCount =
          fs.writeCount + 1) ∧
    (statFile fs (GetBundledContainerdPath goos binDir) = none →
      ∀ src : FileInfo, statFile fs (joinPath exeDir (binaryPaths goos)) = some src →
        ((extractBundledContainerd goos binDir exeDir
            (extractBundledContainerd goos binDir exeDir fs).2).2).writeCount =
          fs.writeCount + 1) := by
  refine ⟨⟨mkdirAll_files fs binDir, mkdirAll_writeCount fs binDir⟩, ?_, ?_, ?_, ?_⟩
  · intro info h hexec
    have h1 : statFile (mkdirAll fs binDir) (GetBundledRuncPath goos binDir) = some info := by
      rw [statFile_mkdirAll]; exact h
    simp [EnsureBundledRuncExtracted, h1, hexec]
  · intro info h hexec
    have h1 : statFile (mkdirAll fs binDir) (GetBundledContainerdPath goos binDir) = some info := by
      rw [statFile_mkdirAll]; exact h
    simp [extractBundledContainerd, h1, hexec]
  · intro hnone src hsrc
    have e1 : statFile (mkdirAll fs binDir) (GetBundledRuncPath goos binDir) = none := by
      rw [statFile_mkdirAll]; exact hnone
    have es : statFile (mkdirAll fs binDir) (runcSourcePath goos exeDir) = some src := by
      rw [statFile_mkdirAll]; exact hsrc
    have hfirst : EnsureBundledRuncExtracted goos binDir exeDir fs =
        (Except.ok (),
          openCreateWriteFile (mkdirAll fs binDir) (GetBundledRuncPath goos binDir)
            src.content) := by
      simp [EnsureBundledRuncExtracted, e1, extractRuncCopy, es]
    rw [hfirst]
    have h2 : statFile
        (mkdirAll (openCreateWriteFile (mkdirAll fs binDir) (GetBundledRuncPath goos binDir)
          src.content) binDir)
        (GetBundledRuncPath goos binDir) =
        some { executable := true, content := src.content } := by
      rw [statFile_mkdirAll]
      exact statFile_openCreateWriteFile_of_none _ _ _ e1
    simp [EnsureBundledRuncExtracted, h2, mkdirAll_writeCount,
      openCreateWriteFile_writeCount]
  · intro hnone src hsrc
    have e1 : statFile (mkdirAll fs binDir) (GetBundledContainerdPath goos binDir) = none := by
      rw [statFile_mkdirAll]; exact hnone
    have es : statFile (mkdirAll fs binDir) (joinPath exeDir (binaryPaths goos)) = some src := by
      rw [statFile_mkdirAll]; exact hsrc
    have hfirst : extractBundledContainerd goos binDir exeDir fs =
        (Except.ok (),
          openCreateWriteFile (mkdirAll fs binDir) (GetBundledContainerdPath goos binDir)
            src.content) := by
      simp [extractBundledContainerd, e1, extractContainerdCopy, es]
    rw [hfirst]
    have h2 : statFile
        (mkdirAll (openCreateWriteFile (mkdirAll fs binDir)
          (GetBundledContainerdPath goos binDir) src.content) binDir)
        (GetBundledContainerdPath goos binDir) =
        some { executable := true, content := src.content } := by
      rw [statFile_mkdirAll]
      exact statFile_openCreateWriteFile_of_none _ _ _ e1
    simp [extractBundledContainerd, h2, mkdirAll_writeCount,
      openCreateWriteFile_writeCount]

/-- The concrete filesystem of the C4 witness: both destinations absent,
both bundled sources present. -/
def c4fsW : FS where
  files := [("exe/binaries/linux/runc", { executable := true, content := 3 }),
            ("exe/binaries/linux/containerd", { executable := true, content := 4 })]
  dirs := []
  writeCount := 0

/-- Witness for C4 at a concrete input: from a fresh cache, two consecutive
calls of each extractor perform exactly one write each. -/
theorem c4_witness :
    ((EnsureBundledRuncExtracted "linux" "bin" "exe"
        (EnsureBundledRuncExtracted "linux" "bin" "exe" c4fsW).2).2).writeCount = 0 + 1 ∧
    ((extractBundledContainerd "linux" "bin" "exe"
        (extractBundledContainerd "linux" "bin" "exe" c4fsW).2).2).writeCount = 0 + 1 := by
  have h := c4_amended_extraction_idempotent "linux" "bin" "exe" c4fsW
  exact ⟨h.2.2.2.1 rfl { executable := true, content := 3 } rfl,
    h.2.2.2.2 rfl { executable := true, content := 4 } rfl⟩

/-! ## Concrete states shared by the `Server` claims -/

/-- A server configuration with a probe-able (non-pipe) control address. -/
def cfgW : ServerConfig where
  root := "/r"
  state := "/s"
  address := "/tmp/c.sock"
  config := ""
  logLevel := "info"
  logFile := "/l"

/-- Native-path oracle with every prerequisite met and the control address
reachable from the first poll tick on. -/
def natEnvUp : NativeEnv where
  extractAllOk := true
  containerdPath := "/cache/containerd"
  runcPath := "/cache/runc"
  cniPath := ""
  bundledBinaryDir := "/cache"
  mkdirRootOk := true
  mkdirStateOk := true
  mkdirSocketDirOk := true
  mkdirLogDirOk := true
  mkdirCniConfOk := true
  logFileOpenOk := true
  spawnOk := true
  avail := fun _ => true

/-- Native-path oracle with every prerequisite met but the control address
never reachable. -/
def natEnvDown : NativeEnv := { natEnvUp with avail := fun _ => false }

/-- WSL2 oracle: the compatibility subsystem is absent. -/
def wslEnvOff : WSL2Env where
  wsl2Available := false
  distroAvailable := false
  installOk := false
  launchOk := false
  mountOk := false
  guestEngineStartOk := false

/-- A Linux-style `Start` environment with all native prerequisites met. -/
def envLinuxUp : StartEnv where
  isMacOS := false
  isWindows := false
  linuxKitStartOk := false
  wsl2 := wslEnvOff
  ensureGuestEngineOk := false
  native := natEnvUp

/-- A server actually brought up through `Server.Start` on the native path:
the canonical live state used by the `Stop` claims. -/
def sLive : Server := (Server.Start (NewServer false "home" cfgW) envLinuxUp).2.1

/-! ## Claim C5 -/

/-- Claim C5 (confirmed): when every native prerequisite is met but the
spawned engine subprocess never makes the configured control address
reachable within the 30 s readiness budget (300 poll ticks), the native
start path of `Server.Start` kills the subprocess, fails with the
readiness-timeout error, and does not mark the server running. -/
theorem c5_readiness_timeout_kills_and_fails (s : Server) (e : NativeEnv)
    (hrun : s.running = false)
    (he : e.extractAllOk = true) (hc : ¬ e.containerdPath = "") (hr : ¬ e.runcPath = "")
    (h1 : e.mkdirRootOk = true) (h2 : e.mkdirStateOk = true) (h3 : e.mkdirSocketDirOk = true)
    (h4 : e.mkdirLogDirOk = true) (h5 : e.mkdirCniConfOk = true)
    (h6 : e.logFileOpenOk = true) (h7 : e.spawnOk = true)
    (hwait : ∀ k : Nat, 1 ≤ k → k ≤ 300 → e.avail (100 * k) = false) :
    (nativeStart s e).1 = Except.error "failed waiting for containerd to start" ∧
    ((nativeStart s e).2.1).IsRunning = false ∧
    ((nativeStart s e).2.2).nativeSpawned = true ∧
    ((nativeStart s e).2.2).nativeKilled = true := by
  have hW : WaitForSocket e.avail s.config.address 30000 =
      (Except.error (waitTimeoutMsg s.config.address), 30000) := by
    apply waitForSocket_timeout_of_false
    intro k hk1 hk2
    exact hwait k hk1 (by omega)
  have hp : nativePrereqErr s e = none := by
    simp [nativePrereqErr, he, hc, hr, h1, h2, h3, h4, h5]
  simp [nativeStart, hp, Server.IsRunning, h6, h7, hW, hrun]

/-- The fresh (not yet started) server used by the C5 witness. -/
def c5Server : Server := NewServer false "home" cfgW

/-- Witness for C5 at a concrete input: all prerequisites met, address never
reachable. -/
theorem c5_witness :
    (nativeStart c5Server natEnvDown).1 =
      Except.error "failed waiting for containerd to start" ∧
    ((nativeStart c5Server natEnvDown).2.1).IsRunning = false ∧
    ((nativeStart c5Server natEnvDown).2.2).nativeSpawned = true ∧
    ((nativeStart c5Server natEnvDown).2.2).nativeKilled = true := by
  exact c5_readiness_timeout_kills_and_fails c5Server natEnvDown rfl rfl
    (by decide) (by decide) rfl rfl rfl rfl rfl rfl rfl (fun k _ _ => rfl)

/-! ## Claim C1 -/

/-- The default Windows server configuration of the C1 scenario: the control
address is the default named pipe. -/
def c1Cfg : ServerConfig where
  root := "/r"
  state := "/s"
  address := "\\\\.\\pipe\\fun-containerd"
  config := ""
  logLevel := "info"
  logFile := "/l"

/-- Fresh Windows server for the C1 scenario (WSL2 enabled by default). -/
def c1Server : Server := NewServer true "home" c1Cfg

/-- C1 scenario oracle: Windows host, WSL2 unavailable, every native
prerequisite met, target reachable the whole time. -/
def c1Env : StartEnv where
  isMacOS := false
  isWindows := true
  linuxKitStartOk := false
  wsl2 := wslEnvOff
  ensureGuestEngineOk := false
  native := natEnvUp

/-- Claim C1 (code bug): on Windows with WSL2 enabled but unavailable,
`Server.Start` does log the fallback notice and proceed with the Native
backend (the effects below show the native subprocess was spawned), but it
then always fails with the readiness error even though every native
prerequisite is met: the default Windows control address is a named pipe,
and for pipe addresses `WaitForSocket` unconditionally reports a timeout
error after the full 30 s budget — its own comment says it should just wait
and let the first client connection surface failures, and its trailing
`return nil` is dead code.  So the fallback happens as the claim says, but
"still succeeds whenever the Native backend's own prerequisites are met"
is defeated by that slip. -/
theorem c1_windows_fallback_native_readiness_failure :
    (Server.Start c1Server c1Env).1 =
      Except.error "failed waiting for containerd to start" ∧
    ((Server.Start c1Server c1Env).2.2).nativeSpawned = true ∧
    ((Server.Start c1Server c1Env).2.2).nativeKilled = true ∧
    ((Server.Start c1Server c1Env).2.2).wslLaunched = false ∧
    ((Server.Start c1Server c1Env).2.1).IsRunning = false := by
  exact ⟨rfl, rfl, rfl, rfl, rfl⟩

/-! ## Claims C2 and C10 -/

/-- Stop oracle: process ignores the interrupt past the 30 s budget,
kill succeeds, caller context never cancelled. -/
def stopIgnoresEnv : StopEnv where
  isMacOS := false
  isWindows := false
  stopLinuxKitOk := true
  stopWSLOk := true
  signalOk := true
  ctxCancelled := false
  behavior := ProcBehavior.ignores
  killOk := true

/-- Stop oracle: process exits (or had already exited) with status 0. -/
def stopExitsEnv : StopEnv := { stopIgnoresEnv with behavior := ProcBehavior.exits 0 }

/-- Claim C2 counterexample: on a live natively-started server whose process
ignores the graceful interrupt past the 30 s budget, `Server.Stop`
force-kills it but returns the escalation condition as a non-nil error —
the overall stop does not count as success, contrary to the claim. -/
theorem c2_counterexample :
    (Server.Stop sLive stopIgnoresEnv).1 =
      Except.error "containerd did not exit gracefully, killed" ∧
    ¬ (Server.Stop sLive stopIgnoresEnv).1 = Except.ok () := by
  refine ⟨rfl, ?_⟩
  intro h
  rw [show (Server.Stop sLive stopIgnoresEnv).1 =
    Except.error "containerd did not exit gracefully, killed" from rfl] at h
  exact Except.noConfusion h

/-- Claim C2 (corrected): on the native path with a live supervised process,
a process that ignores the interrupt past the 30 s budget is force-killed
and `Server.Stop` returns the escalation condition as an *error* — the kill
happens but the stop does not return success.  A process that already
exited with status 0 yields success with no error; a nonzero exit status
yields the "containerd exited with error" error.  Stopping an
already-stopped native server (e.g. a re-stop after the process exited and
was reaped) is a no-op returning no error — this guard is also what keeps
the re-stop from dereferencing a nil process handle. -/
theorem c2_amended_stop_escalation (s : Server) (e : StopEnv)
    (hvm : s.vmRunning = false) (hwsl : s.wslRunning = false)
    (hlive : s.running = true) (hcmd : cmdHasProcess s.cmd = true)
    (hsig : e.signalOk = true) (hctx : e.ctxCancelled = false) :
    (e.behavior = ProcBehavior.ignores → e.killOk = true →
      Server.Stop s e = (Except.error "containerd did not exit gracefully, killed", s)) ∧
    (e.behavior = ProcBehavior.exits 0 →
      Server.Stop s e = (Except.ok (), { s with running := false })) ∧
    (∀ c : Nat, ¬ c = 0 → e.behavior = ProcBehavior.exits c →
      Server.Stop s e = (Except.error "containerd exited with error",
        { s with running := false })) ∧
    (∀ s2 : Server, s2.running = false → s2.vmRunning = false → s2.wslRunning = false →
      Server.Stop s2 e = (Except.ok (), s2)) := by
  refine ⟨?_, ?_, ?_, ?_⟩
  · intro hb hk
    simp [Server.Stop, hvm, hwsl, hlive, hcmd, hsig, hctx, hb, hk]
  · intro hb
    simp [Server.Stop, hvm, hwsl, hlive, hcmd, hsig, hctx, hb]
  · intro c hc hb
    simp [Server.Stop, hvm, hwsl, hlive, hcmd, hsig, hctx, hb, hc]
  · intro s2 h1 h2 h3
    simp [Server.Stop, h1, h2, h3]

/-- Witness for C2 (amended) at a concrete input: stopping the live server
whose process exits with status 0 returns success with no error. -/
theorem c2_witness :
    Server.Stop sLive stopExitsEnv = (Except.ok (), { sLive with running := false }) := by
  exact (c2_amended_stop_escalation sLive stopExitsEnv rfl rfl rfl rfl rfl rfl).2.1 rfl

/-- Claim C10 (confirmed): when `Server.Stop` on the native backend exits
through the graceful-timeout (forced kill) branch or through the
context-cancellation branch, the `running` flag is not cleared and
`IsRunning` still returns `true`; with the interrupt delivered, `running`
is set back to `false` exactly on the process-exit branch. -/
theorem c10_running_flag_cleared_only_on_exit (s : Server) (e : StopEnv)
    (hvm : s.vmRunning = false) (hwsl : s.wslRunning = false)
    (hlive : s.running = true) (hcmd : cmdHasProcess s.cmd = true)
    (hsig : e.signalOk = true) :
    (e.ctxCancelled = true → ((Server.Stop s e).2).IsRunning = true) ∧
    (e.ctxCancelled = false → e.behavior = ProcBehavior.ignores →
      ((Server.Stop s e).2).IsRunning = true) ∧
    (∀ c : Nat, e.ctxCancelled = false → e.behavior = ProcBehavior.exits c →
      ((Server.Stop s e).2).IsRunning = false) ∧
    (((Server.Stop s e).2).IsRunning = false →
      e.ctxCancelled = false ∧ ∃ c : Nat, e.behavior = ProcBehavior.exits c) := by
  refine ⟨?_, ?_, ?_, ?_⟩
  · intro hctx
    cases hko : e.killOk <;>
      simp [Server.Stop, Server.IsRunning, hvm, hwsl, hlive, hcmd, hsig, hctx, hko]
  · intro hctx hb
    cases hko : e.killOk <;>
      simp [Server.Stop, Server.IsRunning, hvm, hwsl, hlive, hcmd, hsig, hctx, hb, hko]
  · intro c hctx hb
    by_cases hc : c = 0 <;>
      simp [Server.Stop, Server.IsRunning, hvm, hwsl, hlive, hcmd, hsig, hctx, hb, hc]
  · intro h
    cases hctx : e.ctxCancelled with
    | true =>
      exfalso
      cases hko : e.killOk <;>
        simp [Server.Stop, Server.IsRunning, hvm, hwsl, hlive, hcmd, hsig, hctx, hko] at h
    | false =>
      cases hb : e.behavior with
      | exits c => exact ⟨rfl, c, rfl⟩
      | ignores =>
        exfalso
        cases hko : e.killOk <;>
          simp [Server.Stop, Server.IsRunning, hvm, hwsl, hlive, hcmd, hsig, hctx, hb, hko] at h

/-- Witness for C10 at a concrete input: after the forced-kill escalation
the live server still reports itself running. -/
theorem c10_witness :
    ((Server.Stop sLive stopIgnoresEnv).2).IsRunning = true := by
  exact (c10_running_flag_cleared_only_on_exit sLive stopIgnoresEnv
    rfl rfl rfl rfl rfl).2.1 rfl rfl

/-! ## Claim C7 -/

theorem managerStop_of_none (m : Manager) (e : MStopEnv)
    (h1 : m.server = none) (h2 : m.client = none) :
    Manager.Stop m e = (Except.ok (), m) := by
  obtain ⟨cfg, srv, cl, ue⟩ := m
  have h1b : srv = none := h1
  have h2b : cl = none := h2
  subst h1b
  subst h2b
  rfl

theorem managerStop_clears (m : Manager) (e : MStopEnv) :
    (Manager.Stop m e).2 = { m with client := none, server := none } := by
  obtain ⟨cfg, srv, cl, ue⟩ := m
  cases srv with
  | none =>
    cases cl with
    | none => rfl
    | some c =>
      cases hc : e.clientCloseOk <;> simp [Manager.Stop, hc]
  | some srv =>
    cases cl with
    | none =>
      cases hE : (Server.Stop srv e.serverStop).1 <;> simp [Manager.Stop, hE]
    | some c =>
      cases hc : e.clientCloseOk <;>
        cases hE : (Server.Stop srv e.serverStop).1 <;> simp [Manager.Stop, hc, hE]

/-- Claim C7 (confirmed): `Manager.Stop` is idempotent — on a manager that
holds no server and no client (in particular a freshly constructed
`NewManager`, i.e. one on which nothing was ever started, in any run mode),
it is a no-op returning no error, and a second `Stop` right after any first
`Stop` is a no-op returning no error. -/
theorem c7_manager_stop_idempotent (m : Manager) (e e2 : MStopEnv) (cfg : ManagerConfig) :
    (m.server = none → m.client = none → Manager.Stop m e = (Except.ok (), m)) ∧
    (Manager.Stop (NewManager cfg) e = (Except.ok (), NewManager cfg)) ∧
    (Manager.Stop (Manager.Stop m e).2 e2 = (Except.ok (), (Manager.Stop m e).2)) := by
  refine ⟨?_, ?_, ?_⟩
  · intro h1 h2
    exact managerStop_of_none m e h1 h2
  · exact managerStop_of_none (NewManager cfg) e rfl rfl
  · rw [managerStop_clears m e]
    exact managerStop_of_none _ e2 rfl rfl

/-- Concrete manager configuration for the C7 witness. -/
def mcfgW : ManagerConfig where
  runAs := "both"
  serverConfig := cfgW
  clientSocket := "/tmp/c.sock"
  namespaceName := "fun"

/-- Concrete stop oracle for the C7 witness. -/
def mStopEnvW : MStopEnv where
  clientCloseOk := true
  serverStop := stopExitsEnv

/-- Witness for C7 at a concrete input: stopping a freshly constructed
manager in `both` mode is a no-op returning no error. -/
theorem c7_witness :
    Manager.Stop (NewManager mcfgW) mStopEnvW = (Except.ok (), NewManager mcfgW) := by
  exact (c7_manager_stop_idempotent (NewManager mcfgW) mStopEnvW mStopEnvW mcfgW).1 rfl rfl

/-! ## Claims C8 and C9 -/

theorem nativeStart_inv (s : Server) (e : NativeEnv) :
    (nativeStart s e).2.1.config = s.config ∧
    (nativeStart s e).2.1.vmRunning = s.vmRunning ∧
    (nativeStart s e).2.1.wslRunning = s.wslRunning ∧
    (nativeStart s e).2.1.linuxKitConfig = s.linuxKitConfig ∧
    (nativeStart s e).2.1.wsl2Config = s.wsl2Config ∧
    (nativeStart s e).2.2.vmLaunched = false ∧
    (nativeStart s e).2.2.wslLaunched = false := by
  cases hp : nativePrereqErr s e with
  | some msg => simp [nativeStart, hp, noEffects]
  | none =>
    simp only [nativeStart, hp]
    repeat' split
    all_goals simp [noEffects]

theorem serverStop_inv (s : Server) (e : StopEnv) :
    ((Server.Stop s e).2).config = s.config ∧
    ((Server.Stop s e).2).wsl2Config = s.wsl2Config ∧
    ((Server.Stop s e).2).linuxKitConfig = s.linuxKitConfig := by
  simp only [Server.Stop]
  repeat' split
  all_goals simp

/-- Server configuration of the C8 scenario: a probe-able address so that
the native fallback can fully succeed. -/
def c8Cfg : ServerConfig where
  root := "/r"
  state := "/s"
  address := "/tmp/c8.sock"
  config := ""
  logLevel := "info"
  logFile := "/l"

/-- Fresh Windows server of the C8 scenario. -/
def c8Server : Server := NewServer true "home" c8Cfg

/-- WSL2 oracle of the C8 scenario: subsystem and distribution present, the
distribution launches, but the shared-directory mount fails afterwards, so
`StartWSL2Environment` errors with the distribution already running. -/
def wslEnvPartial : WSL2Env where
  wsl2Available := true
  distroAvailable := true
  installOk := true
  launchOk := true
  mountOk := false
  guestEngineStartOk := true

/-- Start oracle of the C8 scenario. -/
def c8Env : StartEnv where
  isMacOS := false
  isWindows := true
  linuxKitStartOk := false
  wsl2 := wslEnvPartial
  ensureGuestEngineOk := true
  native := natEnvUp

/-- Claim C8 counterexample: a single `Server.Start` call on Windows first
launches the WSL2 distribution (which fails a later provisioning step — the
mount — and is *not* terminated), then falls back to and successfully starts
the native subprocess.  Both the `wslLaunched` and `nativeSpawned` effects
are set and the call succeeds, so this one `Start` started two backend
instances, which then run concurrently — refuting "Start never starts more
than one backend / no two backends run concurrently". -/
theorem c8_counterexample :
    ((Server.Start c8Server c8Env).2.2).wslLaunched = true ∧
    ((Server.Start c8Server c8Env).2.2).nativeSpawned = true ∧
    ((Server.Start c8Server c8Env).2.2).nativeKilled = false ∧
    (Server.Start c8Server c8Env).1 = Except.ok () ∧
    ((Server.Start c8Server c8Env).2.1).IsRunning = true := by
  exact ⟨rfl, rfl, rfl, rfl, rfl⟩

/-- Claim C8 (corrected): the macOS and native backends are never launched
together, at most one backend is recorded active in the `Server` state
(`vmRunning` and `wslRunning` are never both set, and a server that records
the WSL2 backend active spawned no native subprocess), and the only way one
`Start` launches both the WSL2 environment and the native subprocess is the
fallback after a *partially started* WSL2 environment (`StartWSL2Environment`
returned an error with the distribution already launched), which the code
leaves running.  A `Manager` holds at most one runtime client: it is a
single optional handle, absent at construction and cleared by every
`Manager.Stop`. -/
theorem c8_amended_single_backend (s : Server) (e : StartEnv) (cfg : ManagerConfig)
    (m : Manager) (me : MStopEnv)
    (hrun : s.running = false) (hvm : s.vmRunning = false) (hwsl : s.wslRunning = false) :
    (¬ ((Server.Start s e).2.2.vmLaunched = true ∧
        (Server.Start s e).2.2.wslLaunched = true)) ∧
    (¬ ((Server.Start s e).2.2.vmLaunched = true ∧
        (Server.Start s e).2.2.nativeSpawned = true)) ∧
    ((Server.Start s e).2.2.wslLaunched = true →
      (Server.Start s e).2.2.nativeSpawned = true →
      exceptOk (StartWSL2Environment e.wsl2).1 = false ∧
        (StartWSL2Environment e.wsl2).2 = true) ∧
    (¬ ((Server.Start s e).2.1.vmRunning = true ∧
        (Server.Start s e).2.1.wslRunning = true)) ∧
    ((Server.Start s e).2.1.wslRunning = true →
      (Server.Start s e).2.2.nativeSpawned = false) ∧
    ((NewManager cfg).client = none ∧ (NewManager cfg).server = none) ∧
    ((Manager.Stop m me).2.client = none) := by
  have hmgr : (Manager.Stop m me).2.client = none := by
    rw [managerStop_clears]
  have hnmc : (NewManager cfg).client = none := rfl
  have hnms : (NewManager cfg).server = none := rfl
  obtain ⟨hcfg, hvmp, hwslp, hlkc, hw2c, hvml, hwsll⟩ := nativeStart_inv s e.native
  cases hmac : e.isMacOS with
  | true =>
    cases hlk : e.linuxKitStartOk <;>
      simp [Server.Start, hrun, hmac, hlk, noEffects, hvm, hwsl, hmgr, hnmc, hnms,
        hvml, hwsll, hvmp, hwslp]
  | false =>
    by_cases hwcond : e.isWindows ∧ s.wsl2Config.enabled ∧ e.wsl2.wsl2Available
    · cases hok : exceptOk (StartWSL2Environment e.wsl2).1 with
      | true =>
        cases hge : e.ensureGuestEngineOk <;>
          simp [Server.Start, hrun, hmac, hwcond, hok, hge, noEffects, hvm, hwsl,
            hmgr, hnmc, hnms]
      | false =>
        simp [Server.Start, hrun, hmac, hwcond, hok, noEffects, hvm, hwsl, hmgr,
          hnmc, hnms, hvml, hwsll, hvmp, hwslp]
        exact fun h _ => h
    · simp [Server.Start, hrun, hmac, hwcond, noEffects, hvm, hwsl, hmgr,
        hnmc, hnms, hvml, hwsll, hvmp, hwslp]

/-- Witness for C8 (amended) at a concrete input: in the C8 scenario the
double launch indeed goes through the characterized fallback —
`StartWSL2Environment` failed with the distribution already launched. -/
theorem c8_witness :
    exceptOk (StartWSL2Environment c8Env.wsl2).1 = false ∧
    (StartWSL2Environment c8Env.wsl2).2 = true := by
  exact (c8_amended_single_backend c8Server c8Env mcfgW (NewManager mcfgW) mStopEnvW
    rfl rfl rfl).2.2.1 rfl rfl

/-- Server configuration of the C9 scenario: empty address, so `NewServer`
fills in the Windows default named pipe. -/
def c9Cfg : ServerConfig where
  root := "/r"
  state := "/s"
  address := ""
  config := ""
  logLevel := "info"
  logFile := "/l"

/-- Fresh Windows server of the C9 scenario. -/
def c9Server : Server := NewServer true "home" c9Cfg

/-- WSL2 oracle with everything succeeding. -/
def wslEnvOn : WSL2Env where
  wsl2Available := true
  distroAvailable := true
  installOk := true
  launchOk := true
  mountOk := true
  guestEngineStartOk := true

/-- Start oracle of the C9 scenario: the WSL2 path fully succeeds. -/
def c9Env : StartEnv where
  isMacOS := false
  isWindows := true
  linuxKitStartOk := false
  wsl2 := wslEnvOn
  ensureGuestEngineOk := true
  native := natEnvUp

/-- Claim C9 counterexample: on the Windows WSL2 success path `Server.Start`
rewrites `ServerConfig.Address` to the WSL socket path, so
`GetSocketAddress` differs before and after `Start` — refuting "no operation
after construction (including Start) changes any of their fields". -/
theorem c9_counterexample :
    c9Server.GetSocketAddress = "\\\\.\\pipe\\fun-containerd" ∧
    ((Server.Start c9Server c9Env).2.1).GetSocketAddress =
      "wsl://wsl-fun/run/containerd/containerd.sock" ∧
    ¬ ((Server.Start c9Server c9Env).2.1).GetSocketAddress = c9Server.GetSocketAddress := by
  refine ⟨rfl, rfl, ?_⟩
  intro h
  rw [show ((Server.Start c9Server c9Env).2.1).GetSocketAddress =
      "wsl://wsl-fun/run/containerd/containerd.sock" from rfl,
    show c9Server.GetSocketAddress = "\\\\.\\pipe\\fun-containerd" from rfl] at h
  exact absurd h (by decide)

/-- Claim C9 (corrected): after construction, `Server.Start` and
`Server.Stop` leave every `ServerConfig` field except the address untouched,
and leave `WSL2Config` and `LinuxKitConfig` entirely untouched; the address
is either unchanged or — only on the Windows WSL2 success path — rewritten
to the WSL-qualified socket path derived from the (unchanged) `WSL2Config`.
`Stop` never changes the address either, so `GetSocketAddress` is unchanged
by everything except the WSL2 success path of `Start`. -/
theorem c9_amended_config_immutable_except_wsl_address (s : Server) (e : StartEnv)
    (e2 : StopEnv) :
    ((Server.Start s e).2.1).config.root = s.config.root ∧
    ((Server.Start s e).2.1).config.state = s.config.state ∧
    ((Server.Start s e).2.1).config.config = s.config.config ∧
    ((Server.Start s e).2.1).config.logLevel = s.config.logLevel ∧
    ((Server.Start s e).2.1).config.logFile = s.config.logFile ∧
    ((Server.Start s e).2.1).wsl2Config = s.wsl2Config ∧
    ((Server.Start s e).2.1).linuxKitConfig = s.linuxKitConfig ∧
    (((Server.Start s e).2.1).GetSocketAddress = s.GetSocketAddress ∨
      ((Server.Start s e).2.1).GetSocketAddress =
        GetWindowsContainerdSocketPath true s.wsl2Config) ∧
    ((Server.Stop s e2).2).config = s.config ∧
    ((Server.Stop s e2).2).wsl2Config = s.wsl2Config ∧
    ((Server.Stop s e2).2).linuxKitConfig = s.linuxKitConfig := by
  obtain ⟨hstop1, hstop2, hstop3⟩ := serverStop_inv s e2
  obtain ⟨hcfg, hvmp, hwslp, hlkc, hw2c, hvml, hwsll⟩ := nativeStart_inv s e.native
  by_cases hrun : s.running = true
  · simp [Server.Start, Server.GetSocketAddress, hrun, hstop1, hstop2, hstop3]
  · have hrun2 : s.running = false := by
      cases hr : s.running
      · rfl
      · exact absurd hr hrun
    cases hmac : e.isMacOS with
    | true =>
      cases hlk : e.linuxKitStartOk <;>
        simp [Server.Start, Server.GetSocketAddress, hrun2, hmac, hlk,
          hstop1, hstop2, hstop3]
    | false =>
      by_cases hwcond : e.isWindows ∧ s.wsl2Config.enabled ∧ e.wsl2.wsl2Available
      · cases hok : exceptOk (StartWSL2Environment e.wsl2).1 with
        | true =>
          have havail : e.wsl2.wsl2Available = true := hwcond.2.2
          cases hge : e.ensureGuestEngineOk <;>
            simp [Server.Start, Server.GetSocketAddress, hrun2, hmac, hwcond, hok, hge,
              havail, hstop1, hstop2, hstop3]
        | false =>
          simp [Server.Start, Server.GetSocketAddress, hrun2, hmac, hwcond, hok,
            hcfg, hw2c, hlkc, hstop1, hstop2, hstop3]
      · simp [Server.Start, Server.GetSocketAddress, hrun2, hmac, hwcond,
          hcfg, hw2c, hlkc, hstop1, hstop2, hstop3]

/-- Witness for C9 (amended) at a concrete input: even on the WSL2 success
path of the C9 scenario, the `WSL2Config` itself is unchanged by `Start`. -/
theorem c9_witness :
    ((Server.Start c9Server c9Env).2.1).wsl2Config = c9Server.wsl2Config := by
  exact (c9_amended_config_immutable_except_wsl_address c9Server c9Env
    stopExitsEnv).2.2.2.2.2.1

end Funserver
